import Mathlib

/-!
Shallow embedding of the load-generation engine in `src/lib/io/load.c`
(freeradius-server).  The engine paces outbound requests: a timer tick
(`load_timer`) counts the packets queued by the previous decision, updates a
backlog EMA, decides between SENDING and GATED, handles ramp-step rollover,
re-arms the timer and invokes the send callback; `fr_load_generator_have_reply`
feeds replies back, updating the RTT estimators and the latency histogram.

Modelling conventions:
* `fr_time_t` / `fr_time_delta_t` (C `int64_t`) are modelled as `Int`;
  monotone counters (`sent`, `received`, ...) as `Nat`.
* The admission comparison and the EMA numerator are computed in C in
  `uint32_t` arithmetic (the `(uint32_t)` cast on `backlog_ema`, and the
  usual-arithmetic-conversion of `(l->pps + 1) * l->stats.backlog_ema` to
  unsigned); we model that wraparound explicitly with `% U32`.
* The RTT estimator's fields are `uint64_t` and the sums in the RTT/RTTVAR
  macros wrap mod 2^64 (the int64 sample `t` is converted to uint64 first);
  both conversions are modelled explicitly with `% U64`.
* The event-loop timer is external: `load_timer` takes an `armOk : Bool`
  standing for whether `fr_event_timer_in` succeeds, and reports the delay it
  passed to the timer facility (`armed`) and the number of send-callback
  invocations it performed (`calls`).
* C integer division with nonnegative operands is `Nat` division; division by
  zero (C UB, unreachable through the public entry points) collapses to
  Lean's `x / 0 = 0`.
-/

namespace Load

def NSEC : Nat := 1000000000

def U32 : Nat := 4294967296

def U64 : Nat := 18446744073709551616

def IBETA : Nat := 4

def IALPHA : Nat := 8

/-- DIFF(_rtt, _t) = (_rtt < _t ? (_t - _rtt) : (_rtt - _t)).  Both operands
are uint64 values (the int64 `t` is converted to uint64 by the usual
arithmetic conversions); for operands below 2^64 the conditional picks the
larger minus the smaller, so no subtraction wraps and the value is the exact
absolute difference. -/
def DIFF (rtt t : Nat) : Nat := if rtt < t then t - rtt else rtt - t

/-- RTTVAR(_rtt, _rttvar, _t) = (((IBETA - 1) * _rttvar) + DIFF(_rtt, _t)) / IBETA,
computed in uint64 arithmetic: the sum wraps mod 2^64 before the division. -/
def RTTVAR (rtt rttvar t : Nat) : Nat := (((IBETA - 1) * rttvar + DIFF rtt t) % U64) / IBETA

/-- RTT(_old, _new) = ((_new + ((IALPHA - 1) * _old)) / IALPHA), computed in
uint64 arithmetic: the sum wraps mod 2^64 before the division. -/
def RTT (old new : Nat) : Nat := ((new + (IALPHA - 1) * old) % U64) / IALPHA

inductive fr_load_state_t where
  | INIT
  | SENDING
  | GATED
  | DRAINING
deriving DecidableEq

structure fr_load_config_t where
  start_pps : Nat
  max_pps : Nat
  duration : Nat
  step : Nat
  milliseconds : Nat
  parallel : Nat
deriving DecidableEq

structure fr_load_stats_t where
  sent : Nat
  received : Nat
  max_backlog : Int
  backlog_ema : Int
  blocked : Bool
  rtt : Nat
  rttvar : Nat
  pps : Nat
  pps_accepted : Nat
  start : Int
  end_ : Int
  last_send : Int
  times : List Nat
deriving DecidableEq

def fr_load_stats_init : fr_load_stats_t where
  sent := 0
  received := 0
  max_backlog := 0
  backlog_ema := 0
  blocked := false
  rtt := 0
  rttvar := 0
  pps := 0
  pps_accepted := 0
  start := 0
  end_ := 0
  last_send := 0
  times := List.replicate 8 0

structure fr_load_t where
  state : fr_load_state_t
  config : fr_load_config_t
  stats : fr_load_stats_t
  step_start : Int
  step_end : Int
  step_received : Nat
  pps : Nat
  delta : Int
  count : Nat
  next : Int
deriving DecidableEq

/-- fr_load_generator_create: talloc_zero the engine, then apply the config
defaults (start_pps=1, milliseconds=1000, parallel=1 when zero). -/
def fr_load_generator_create (config : fr_load_config_t) : fr_load_t :=
  let config : fr_load_config_t :=
    { config with
      start_pps := if config.start_pps = 0 then 1 else config.start_pps,
      milliseconds := if config.milliseconds = 0 then 1000 else config.milliseconds,
      parallel := if config.parallel = 0 then 1 else config.parallel }
  { state := .INIT
    config := config
    stats := fr_load_stats_init
    step_start := 0
    step_end := 0
    step_received := 0
    pps := 0
    delta := 0
    count := 0
    next := 0 }

/-- The backlog-EMA update as the C line computes it:
`(((backlog - ema) * 2) + ((pps + 1) * ema)) / (pps + 1)`, where the second
addend, the sum and the division are carried out in `uint32_t` arithmetic
(so the numerator is the mathematical value mod 2^32). -/
def backlog_ema_wrapped (backlog ema : Int) (pps : Nat) : Int :=
  ((((backlog - ema) * 2 + ((pps : Int) + 1) * ema) % (U32 : Int)).toNat / (pps + 1) : Nat)

/-- The same formula read over unbounded integers, as the spec states it:
`ema' = ((backlog - ema)*2 + (pps+1)*ema) / (pps+1)`, a single division
performed after all additions. -/
def backlog_ema_ideal (backlog ema : Int) (pps : Nat) : Int :=
  ((backlog - ema) * 2 + ((pps : Int) + 1) * ema) / ((pps : Int) + 1)

/-- Steps 1-4 of load_timer: `stats.sent += count`, backlog and max_backlog,
the EMA update, `stats.last_send = now`. -/
def load_timer_update (l : fr_load_t) (now : Int) : fr_load_t :=
  { l with stats :=
    { l.stats with
      sent := l.stats.sent + l.count,
      max_backlog :=
        if ((l.stats.sent + l.count : Nat) : Int) - (l.stats.received : Int) > l.stats.max_backlog
        then ((l.stats.sent + l.count : Nat) : Int) - (l.stats.received : Int)
        else l.stats.max_backlog,
      backlog_ema :=
        backlog_ema_wrapped (((l.stats.sent + l.count : Nat) : Int) - (l.stats.received : Int))
          l.stats.backlog_ema l.pps,
      last_send := now } }

/-- The admission comparison of load_timer, in `uint32_t` arithmetic:
`((uint32_t) l->stats.backlog_ema * 1000) < (l->pps * l->config->milliseconds)`. -/
abbrev load_admission_cond (l : fr_load_t) : Prop :=
  ((l.stats.backlog_ema % (U32 : Int)).toNat * 1000) % U32
    < (l.pps * l.config.milliseconds) % U32

/-- Step 5 of load_timer: the admission decision.  Returns the engine after
the decision together with the local `delta` that would be handed to the
timer (in the GATED branch that value is dead: the timer is only armed while
SENDING). -/
def load_admission (l : fr_load_t) (now : Int) : fr_load_t × Int :=
  if load_admission_cond l then
    ({ l with
        state := .SENDING,
        stats := { l.stats with blocked := false },
        count := l.config.parallel,
        next := l.next + l.delta },
      if l.next + l.delta < now then 0 else l.next + l.delta - now)
  else
    ({ l with state := .GATED, count := 1, next := now + l.delta }, l.delta)

/-- Step 6 of load_timer: ramp-step rollover when `next >= step_end`;
escalates pps by `step` and forces DRAINING once `max_pps` is set and
exceeded. -/
def load_step_rollover (l : fr_load_t) : fr_load_t :=
  if l.next ≥ l.step_end then
    let pps := l.pps + l.config.step
    let l2 : fr_load_t :=
      { l with
        step_start := l.next,
        step_end := l.next + ((l.config.duration * NSEC : Nat) : Int),
        step_received := l.stats.received,
        pps := pps,
        stats := { l.stats with pps := pps },
        delta := ((NSEC * l.config.parallel / pps : Nat) : Int) }
    if l.config.max_pps ≠ 0 ∧ pps > l.config.max_pps then { l2 with state := .DRAINING } else l2
  else l

structure TickResult where
  engine : fr_load_t
  /-- the delay passed to fr_event_timer_in, when it was called -/
  armed : Option Int
  /-- number of send-callback invocations performed by this tick -/
  calls : Nat
deriving DecidableEq

/-- Steps 7-8 of load_timer: if still SENDING, arm the timer for `delay`
(`armOk` is the outcome of `fr_event_timer_in`); on failure force DRAINING
and return before the callback loop; otherwise fall through and run the
callback `count` times. -/
def load_timer_arm (l3 : fr_load_t) (delay : Int) (armOk : Bool) : TickResult :=
  if l3.state = .SENDING then
    if armOk then ⟨l3, some delay, l3.count⟩
    else ⟨{ l3 with state := .DRAINING }, some delay, 0⟩
  else ⟨l3, none, l3.count⟩

/-- load_timer: one tick of the engine. -/
def load_timer (l : fr_load_t) (now : Int) (armOk : Bool) : TickResult :=
  let a := load_admission (load_timer_update l now) now
  load_timer_arm (load_step_rollover a.1) a.2 armOk

/-- The field initialization performed by fr_load_generator_start before its
synchronous bootstrap tick: first ramp window, pps = start_pps,
delta = NSEC * parallel / pps, next = step_start + delta, count = parallel. -/
def start_init (l : fr_load_t) (now : Int) : fr_load_t :=
  { l with
    stats := { l.stats with start := now, pps := l.config.start_pps },
    step_start := now,
    step_end := now + ((l.config.duration * NSEC : Nat) : Int),
    pps := l.config.start_pps,
    delta := ((NSEC * l.config.parallel / l.config.start_pps : Nat) : Int),
    next := now + ((NSEC * l.config.parallel / l.config.start_pps : Nat) : Int),
    count := l.config.parallel }

/-- fr_load_generator_start: initialize the first ramp window and pacing
state, then run one synchronous tick.  The C function returns 0
unconditionally. -/
def fr_load_generator_start (l : fr_load_t) (now : Int) (armOk : Bool) : TickResult × Int :=
  (load_timer (start_init l now) now armOk, 0)

inductive fr_load_reply_t where
  | FR_LOAD_CONTINUE
  | FR_LOAD_DONE
deriving DecidableEq

structure ReplyResult where
  engine : fr_load_t
  result : fr_load_reply_t
  /-- the synchronous tick triggered while GATED, if any -/
  tick : Option TickResult
deriving DecidableEq

/-- The 8-way decade classification of a reply latency `t` in nanoseconds
(the if/else chain over `stats.times`). -/
def bucket (t : Int) : Nat :=
  if t < 1000 then 0
  else if t < 10000 then 1
  else if t < 100000 then 2
  else if t < 1000000 then 3
  else if t < 10000000 then 4
  else if t < 100000000 then 5
  else if t < (NSEC : Nat) then 6
  else 7

/-- fr_load_generator_have_reply.  `t = now - request_time` is `int64_t`; in
the RTT macros it is converted to `uint64_t` (`tU`).  rttvar is updated
before rtt, both from the old rtt. -/
def fr_load_generator_have_reply (l : fr_load_t) (now request_time : Int) (armOk : Bool) :
    ReplyResult :=
  let t : Int := now - request_time
  let tU : Nat := (t % (U64 : Int)).toNat
  let stats1 : fr_load_stats_t :=
    { l.stats with
      rttvar := RTTVAR l.stats.rtt l.stats.rttvar tU,
      rtt := RTT l.stats.rtt tU }
  let stats2 : fr_load_stats_t := { stats1 with received := stats1.received + 1 }
  let stats3 : fr_load_stats_t :=
    { stats2 with
      pps_accepted := (stats2.received - l.step_received) * NSEC / (now - l.step_start).toNat }
  let stats4 : fr_load_stats_t :=
    { stats3 with times := stats3.times.set (bucket t) (stats3.times.getD (bucket t) 0 + 1) }
  let l1 : fr_load_t := { l with stats := stats4 }
  if l1.state = .SENDING then ⟨l1, .FR_LOAD_CONTINUE, none⟩
  else if l1.state = .GATED then
    let l2 : fr_load_t := { l1 with stats := { l1.stats with blocked := true } }
    let r := load_timer l2 now armOk
    ⟨r.engine, .FR_LOAD_CONTINUE, some r⟩
  else if l1.state ≠ .DRAINING then ⟨l1, .FR_LOAD_CONTINUE, none⟩
  else if l1.stats.received < l1.stats.sent then ⟨l1, .FR_LOAD_CONTINUE, none⟩
  else ⟨{ l1 with stats := { l1.stats with end_ := now } }, .FR_LOAD_DONE, none⟩

/-- Feed a scripted sequence of latency samples: each sample `t` is delivered
as a reply with `request_time = 0` observed at `now = t`. -/
def rtt_run (l : fr_load_t) (armOk : Bool) : List Nat → fr_load_t
  | [] => l
  | t :: ts => rtt_run (fr_load_generator_have_reply l ((t : Nat) : Int) 0 armOk).engine armOk ts

/-- The RTT recurrence as the spec states it (§4.3), with `rttvar` updated
from the old `rtt` first: given `(rtt, rttvar)` and a sample `t`, produce
`(rtt', rttvar')` with `rttvar' = ((IBETA-1)*rttvar + |rtt - t|)/IBETA` and
`rtt' = (t + (IALPHA-1)*rtt)/IALPHA`. -/
def rtt_spec_step (p : Nat × Nat) (t : Nat) : Nat × Nat :=
  ((t + (IALPHA - 1) * p.1) / IALPHA,
   ((IBETA - 1) * p.2 + (if p.1 < t then t - p.1 else p.1 - t)) / IBETA)

/-! Helper lemmas: which statistics a tick leaves untouched, and pointwise
behaviour of `List.set`/`List.getD`. -/

theorem load_admission_stats_frame (l : fr_load_t) (now : Int) :
    (load_admission l now).1.stats.rtt = l.stats.rtt ∧
    (load_admission l now).1.stats.rttvar = l.stats.rttvar ∧
    (load_admission l now).1.stats.times = l.stats.times ∧
    (load_admission l now).1.stats.received = l.stats.received ∧
    (load_admission l now).1.stats.end_ = l.stats.end_ ∧
    (load_admission l now).1.stats.sent = l.stats.sent ∧
    (load_admission l now).1.stats.backlog_ema = l.stats.backlog_ema := by
  unfold load_admission
  split <;> exact ⟨rfl, rfl, rfl, rfl, rfl, rfl, rfl⟩

theorem load_step_rollover_frame (l : fr_load_t) :
    (load_step_rollover l).stats.rtt = l.stats.rtt ∧
    (load_step_rollover l).stats.rttvar = l.stats.rttvar ∧
    (load_step_rollover l).stats.times = l.stats.times ∧
    (load_step_rollover l).stats.received = l.stats.received ∧
    (load_step_rollover l).stats.end_ = l.stats.end_ ∧
    (load_step_rollover l).stats.sent = l.stats.sent ∧
    (load_step_rollover l).next = l.next ∧
    (load_step_rollover l).count = l.count ∧
    (load_step_rollover l).stats.backlog_ema = l.stats.backlog_ema := by
  simp only [load_step_rollover]
  split
  · split <;> exact ⟨rfl, rfl, rfl, rfl, rfl, rfl, rfl, rfl, rfl⟩
  · exact ⟨rfl, rfl, rfl, rfl, rfl, rfl, rfl, rfl, rfl⟩

theorem load_timer_arm_engine_stats (l3 : fr_load_t) (d : Int) (armOk : Bool) :
    (load_timer_arm l3 d armOk).engine.stats = l3.stats := by
  unfold load_timer_arm
  split
  · split <;> rfl
  · rfl

theorem load_timer_arm_engine_count (l3 : fr_load_t) (d : Int) (armOk : Bool) :
    (load_timer_arm l3 d armOk).engine.count = l3.count := by
  unfold load_timer_arm
  split
  · split <;> rfl
  · rfl

theorem load_timer_arm_engine_next (l3 : fr_load_t) (d : Int) (armOk : Bool) :
    (load_timer_arm l3 d armOk).engine.next = l3.next := by
  unfold load_timer_arm
  split
  · split <;> rfl
  · rfl

theorem load_timer_eq (l : fr_load_t) (now : Int) (armOk : Bool) :
    load_timer l now armOk
      = load_timer_arm (load_step_rollover (load_admission (load_timer_update l now) now).1)
          (load_admission (load_timer_update l now) now).2 armOk := rfl

theorem load_timer_engine_stats (l : fr_load_t) (now : Int) (armOk : Bool) :
    (load_timer l now armOk).engine.stats
      = (load_step_rollover (load_admission (load_timer_update l now) now).1).stats := by
  rw [load_timer_eq, load_timer_arm_engine_stats]

theorem load_timer_engine_rtt (l : fr_load_t) (now : Int) (armOk : Bool) :
    (load_timer l now armOk).engine.stats.rtt = l.stats.rtt := by
  rw [load_timer_engine_stats, (load_step_rollover_frame _).1, (load_admission_stats_frame _ _).1]
  rfl

theorem load_timer_engine_rttvar (l : fr_load_t) (now : Int) (armOk : Bool) :
    (load_timer l now armOk).engine.stats.rttvar = l.stats.rttvar := by
  rw [load_timer_engine_stats, (load_step_rollover_frame _).2.1,
    (load_admission_stats_frame _ _).2.1]
  rfl

theorem load_timer_engine_times (l : fr_load_t) (now : Int) (armOk : Bool) :
    (load_timer l now armOk).engine.stats.times = l.stats.times := by
  rw [load_timer_engine_stats, (load_step_rollover_frame _).2.2.1,
    (load_admission_stats_frame _ _).2.2.1]
  rfl

theorem load_timer_engine_received (l : fr_load_t) (now : Int) (armOk : Bool) :
    (load_timer l now armOk).engine.stats.received = l.stats.received := by
  rw [load_timer_engine_stats, (load_step_rollover_frame _).2.2.2.1,
    (load_admission_stats_frame _ _).2.2.2.1]
  rfl

theorem load_timer_engine_end (l : fr_load_t) (now : Int) (armOk : Bool) :
    (load_timer l now armOk).engine.stats.end_ = l.stats.end_ := by
  rw [load_timer_engine_stats, (load_step_rollover_frame _).2.2.2.2.1,
    (load_admission_stats_frame _ _).2.2.2.2.1]
  rfl

theorem load_timer_engine_sent (l : fr_load_t) (now : Int) (armOk : Bool) :
    (load_timer l now armOk).engine.stats.sent = l.stats.sent + l.count := by
  rw [load_timer_engine_stats, (load_step_rollover_frame _).2.2.2.2.2.1,
    (load_admission_stats_frame _ _).2.2.2.2.2.1]
  rfl

theorem load_timer_engine_backlog_ema (l : fr_load_t) (now : Int) (armOk : Bool) :
    (load_timer l now armOk).engine.stats.backlog_ema
      = backlog_ema_wrapped (((l.stats.sent + l.count : Nat) : Int) - (l.stats.received : Int))
          l.stats.backlog_ema l.pps := by
  rw [load_timer_engine_stats, (load_step_rollover_frame _).2.2.2.2.2.2.2.2,
    (load_admission_stats_frame _ _).2.2.2.2.2.2]
  rfl

theorem getD_set_self : ∀ (xs : List Nat) (i v : Nat), i < xs.length →
    (xs.set i v).getD i 0 = v
  | _ :: _, 0, _, _ => rfl
  | _ :: xs, i + 1, v, h => getD_set_self xs i v (Nat.lt_of_succ_lt_succ h)

theorem getD_set_ne : ∀ (xs : List Nat) (i j v : Nat), j ≠ i →
    (xs.set i v).getD j 0 = xs.getD j 0
  | [], _, _, _, _ => rfl
  | _ :: _, 0, 0, _, h => absurd rfl h
  | _ :: _, 0, _ + 1, _, _ => rfl
  | _ :: _, _ + 1, 0, _, _ => rfl
  | _ :: xs, i + 1, j + 1, v, h => getD_set_ne xs i j v (fun e => h (by rw [e]))

/-- What one reply does to the estimator/histogram statistics, in every
engine state (a synchronous GATED tick touches none of these fields). -/
theorem have_reply_estimators (l : fr_load_t) (now rt : Int) (armOk : Bool) :
    (fr_load_generator_have_reply l now rt armOk).engine.stats.rtt
      = RTT l.stats.rtt (((now - rt) % (U64 : Int)).toNat) ∧
    (fr_load_generator_have_reply l now rt armOk).engine.stats.rttvar
      = RTTVAR l.stats.rtt l.stats.rttvar (((now - rt) % (U64 : Int)).toNat) ∧
    (fr_load_generator_have_reply l now rt armOk).engine.stats.times
      = l.stats.times.set (bucket (now - rt)) (l.stats.times.getD (bucket (now - rt)) 0 + 1) ∧
    (fr_load_generator_have_reply l now rt armOk).engine.stats.received
      = l.stats.received + 1 := by
  unfold fr_load_generator_have_reply
  cases hs : l.state <;>
    simp [hs, load_timer_engine_rtt, load_timer_engine_rttvar, load_timer_engine_times,
      load_timer_engine_received]
  split <;> simp

theorem bucket_lt8 (t : Int) : bucket t < 8 := by
  unfold bucket
  repeat' split
  all_goals omega

/-- C4: have_reply returns DONE exactly when the engine is DRAINING and the
just-incremented received count reaches sent (post-increment received ≥ sent,
i.e. sent ≤ received + 1 over the pre-call counters); in that case stats.end
is set to now.  In every other case (SENDING, GATED, INIT, or DRAINING with
replies still outstanding) it returns CONTINUE. -/
theorem have_reply_done_characterization (l : fr_load_t) (now rt : Int) (armOk : Bool) :
    ((fr_load_generator_have_reply l now rt armOk).result = .FR_LOAD_DONE ↔
      (l.state = .DRAINING ∧ l.stats.sent ≤ l.stats.received + 1)) ∧
    ((fr_load_generator_have_reply l now rt armOk).result = .FR_LOAD_DONE →
      (fr_load_generator_have_reply l now rt armOk).engine.stats.end_ = now) := by
  unfold fr_load_generator_have_reply
  cases hs : l.state <;> simp [hs]
  constructor
  · constructor
    · split <;> simp <;> omega
    · intro h
      split <;> simp <;> omega
  · split <;> simp

/-- Closed instance of have_reply_done_characterization: a DRAINING engine
with sent = 1, received = 0 gets DONE from its single reply, and stats.end is
set. -/
theorem have_reply_done_characterization_witness :
    (fr_load_generator_have_reply
      { state := .DRAINING
        config := ⟨2, 0, 5, 1, 1000, 1⟩
        stats := { fr_load_stats_init with sent := 1 }
        step_start := 0
        step_end := 5000000000
        step_received := 0
        pps := 2
        delta := 500000000
        count := 1
        next := 500000000 } 7 0 true).result = .FR_LOAD_DONE ∧
    (fr_load_generator_have_reply
      { state := .DRAINING
        config := ⟨2, 0, 5, 1, 1000, 1⟩
        stats := { fr_load_stats_init with sent := 1 }
        step_start := 0
        step_end := 5000000000
        step_received := 0
        pps := 2
        delta := 500000000
        count := 1
        next := 500000000 } 7 0 true).engine.stats.end_ = 7 := by
  have h := have_reply_done_characterization
    { state := .DRAINING
      config := ⟨2, 0, 5, 1, 1000, 1⟩
      stats := { fr_load_stats_init with sent := 1 }
      step_start := 0
      step_end := 5000000000
      step_received := 0
      pps := 2
      delta := 500000000
      count := 1
      next := 500000000 } 7 0 true
  exact ⟨h.1.mpr ⟨rfl, by decide⟩, h.2 (h.1.mpr ⟨rfl, by decide⟩)⟩

/-- C10: have_reply called while the engine is still INIT is not rejected:
it performs the full statistics update (rtt, rttvar, received, pps_accepted,
histogram), triggers no synchronous tick, leaves the rest of the engine
unchanged, and returns CONTINUE. -/
theorem have_reply_in_init_continues (l : fr_load_t) (now rt : Int) (armOk : Bool)
    (h : l.state = .INIT) :
    (fr_load_generator_have_reply l now rt armOk).result = .FR_LOAD_CONTINUE ∧
    (fr_load_generator_have_reply l now rt armOk).tick = none ∧
    (fr_load_generator_have_reply l now rt armOk).engine =
      { l with stats :=
        { l.stats with
          rttvar := RTTVAR l.stats.rtt l.stats.rttvar (((now - rt) % (U64 : Int)).toNat),
          rtt := RTT l.stats.rtt (((now - rt) % (U64 : Int)).toNat),
          received := l.stats.received + 1,
          pps_accepted :=
            (l.stats.received + 1 - l.step_received) * NSEC / (now - l.step_start).toNat,
          times :=
            l.stats.times.set (bucket (now - rt)) (l.stats.times.getD (bucket (now - rt)) 0 + 1) } } := by
  unfold fr_load_generator_have_reply
  simp [h]

/-- Closed instance of have_reply_in_init_continues at a freshly created
engine. -/
theorem have_reply_in_init_continues_witness :
    (fr_load_generator_have_reply (fr_load_generator_create ⟨2, 0, 5, 1, 1000, 1⟩) 5000 0
        true).result = .FR_LOAD_CONTINUE ∧
    (fr_load_generator_have_reply (fr_load_generator_create ⟨2, 0, 5, 1, 1000, 1⟩) 5000 0
        true).tick = none := by
  have h := have_reply_in_init_continues (fr_load_generator_create ⟨2, 0, 5, 1, 1000, 1⟩)
    5000 0 true rfl
  exact ⟨h.1, h.2.1⟩

theorem bucket_decades (t : Int) :
    (t < 1000 → bucket t = 0) ∧
    (1000 ≤ t ∧ t < 10000 → bucket t = 1) ∧
    (10000 ≤ t ∧ t < 100000 → bucket t = 2) ∧
    (100000 ≤ t ∧ t < 1000000 → bucket t = 3) ∧
    (1000000 ≤ t ∧ t < 10000000 → bucket t = 4) ∧
    (10000000 ≤ t ∧ t < 100000000 → bucket t = 5) ∧
    (100000000 ≤ t ∧ t < 1000000000 → bucket t = 6) ∧
    (1000000000 ≤ t → bucket t = 7) := by
  refine ⟨?_, ?_, ?_, ?_, ?_, ?_, ?_, ?_⟩
  all_goals intro h
  all_goals simp only [bucket, NSEC]
  all_goals split_ifs <;> omega

/-- C8: each reply increments exactly the one histogram bucket selected by
the decade of its latency t (in ns): bucket 0 for t < 1e3, 1 for t < 1e4, 2
for t < 1e5, 3 for t < 1e6, 4 for t < 1e7, 5 for t < 1e8, 6 for t < 1e9, and
7 for t >= 1e9; every other bucket is unchanged. -/
theorem histogram_bucket_increment (l : fr_load_t) (now rt : Int) (armOk : Bool)
    (h8 : l.stats.times.length = 8) :
    bucket (now - rt) < 8 ∧
    (fr_load_generator_have_reply l now rt armOk).engine.stats.times.getD (bucket (now - rt)) 0
      = l.stats.times.getD (bucket (now - rt)) 0 + 1 ∧
    (∀ j, j < 8 → j ≠ bucket (now - rt) →
      (fr_load_generator_have_reply l now rt armOk).engine.stats.times.getD j 0
        = l.stats.times.getD j 0) ∧
    (now - rt < 1000 → bucket (now - rt) = 0) ∧
    (1000 ≤ now - rt ∧ now - rt < 10000 → bucket (now - rt) = 1) ∧
    (10000 ≤ now - rt ∧ now - rt < 100000 → bucket (now - rt) = 2) ∧
    (100000 ≤ now - rt ∧ now - rt < 1000000 → bucket (now - rt) = 3) ∧
    (1000000 ≤ now - rt ∧ now - rt < 10000000 → bucket (now - rt) = 4) ∧
    (10000000 ≤ now - rt ∧ now - rt < 100000000 → bucket (now - rt) = 5) ∧
    (100000000 ≤ now - rt ∧ now - rt < 1000000000 → bucket (now - rt) = 6) ∧
    (1000000000 ≤ now - rt → bucket (now - rt) = 7) := by
  have htimes := (have_reply_estimators l now rt armOk).2.2.1
  have hb : bucket (now - rt) < 8 := bucket_lt8 _
  have hd := bucket_decades (now - rt)
  refine ⟨hb, ?_, ?_, hd.1, hd.2.1, hd.2.2.1, hd.2.2.2.1, hd.2.2.2.2.1, hd.2.2.2.2.2.1,
    hd.2.2.2.2.2.2.1, hd.2.2.2.2.2.2.2⟩
  · rw [htimes, getD_set_self _ _ _ (by rw [h8]; exact hb)]
  · intro j _ hne
    rw [htimes, getD_set_ne _ _ _ _ hne]

/-- Closed instance of histogram_bucket_increment: a 5 microsecond reply to
a fresh engine increments exactly bucket 1. -/
theorem histogram_bucket_increment_witness :
    (fr_load_generator_create ⟨2, 0, 5, 1, 1000, 1⟩).stats.times.length = 8 ∧
    (fr_load_generator_have_reply (fr_load_generator_create ⟨2, 0, 5, 1, 1000, 1⟩) 5000 0
        true).engine.stats.times.getD (bucket ((5000 : Int) - 0)) 0
      = (fr_load_generator_create ⟨2, 0, 5, 1, 1000, 1⟩).stats.times.getD
          (bucket ((5000 : Int) - 0)) 0 + 1 ∧
    bucket ((5000 : Int) - 0) = 1 := by
  have h := histogram_bucket_increment (fr_load_generator_create ⟨2, 0, 5, 1, 1000, 1⟩)
    5000 0 true rfl
  exact ⟨rfl, h.2.1, h.2.2.2.2.1 (by decide)⟩

/-- One estimator step below the wrap region: if rtt, rttvar and the sample
are all below 2^61, no uint64 sum reaches 2^64, so the code's wrapped
RTT/RTTVAR agree with the spec's ideal recurrence, and the results stay
below 2^61. -/
theorem rtt_step_no_wrap (rtt rttvar t : Nat)
    (hr : rtt < 2305843009213693952) (hv : rttvar < 2305843009213693952)
    (ht : t < 2305843009213693952) :
    RTT rtt t = (rtt_spec_step (rtt, rttvar) t).1 ∧
    RTTVAR rtt rttvar t = (rtt_spec_step (rtt, rttvar) t).2 ∧
    RTT rtt t < 2305843009213693952 ∧
    RTTVAR rtt rttvar t < 2305843009213693952 := by
  have hdiff : DIFF rtt t < 2305843009213693952 := by
    unfold DIFF
    split <;> omega
  have h1 : t + (IALPHA - 1) * rtt < U64 := by
    simp only [IALPHA, U64]
    omega
  have h2 : (IBETA - 1) * rttvar + DIFF rtt t < U64 := by
    simp only [IBETA, U64]
    simp only [IBETA, U64] at hdiff ⊢
    omega
  refine ⟨?_, ?_, ?_, ?_⟩
  · simp only [RTT, rtt_spec_step]
    rw [Nat.mod_eq_of_lt h1]
  · simp only [RTTVAR, rtt_spec_step, DIFF]
    rw [Nat.mod_eq_of_lt (by simpa only [DIFF] using h2)]
  · simp only [RTT]
    rw [Nat.mod_eq_of_lt h1]
    simp only [IALPHA] at h1 ⊢
    simp only [U64] at h1
    omega
  · simp only [RTTVAR]
    rw [Nat.mod_eq_of_lt h2]
    simp only [IBETA] at h2 ⊢
    simp only [U64] at h2
    simp only [DIFF] at h2 ⊢
    split_ifs at h2 ⊢ <;> omega

theorem rtt_run_foldl_no_wrap (armOk : Bool) (ts : List Nat) : ∀ l : fr_load_t,
    (∀ t ∈ ts, t < 2305843009213693952) →
    l.stats.rtt < 2305843009213693952 → l.stats.rttvar < 2305843009213693952 →
    ((rtt_run l armOk ts).stats.rtt, (rtt_run l armOk ts).stats.rttvar)
      = List.foldl rtt_spec_step (l.stats.rtt, l.stats.rttvar) ts := by
  induction ts with
  | nil => intro l _ _ _; rfl
  | cons t ts ih =>
    intro l h hr hv
    have ht : t < 2305843009213693952 := h t (List.mem_cons_self t ts)
    have e := have_reply_estimators l ((t : Nat) : Int) 0 armOk
    have htU : ((((t : Nat) : Int) - 0) % (U64 : Int)).toNat = t := by
      rw [sub_zero, Int.emod_eq_of_lt (Int.natCast_nonneg t)
        (by exact_mod_cast (by simp only [U64]; omega : t < U64)), Int.toNat_natCast]
    have step := rtt_step_no_wrap l.stats.rtt l.stats.rttvar t hr hv ht
    have hr' : (fr_load_generator_have_reply l ((t : Nat) : Int) 0 armOk).engine.stats.rtt
        < 2305843009213693952 := by
      rw [e.1, htU]
      exact step.2.2.1
    have hv' : (fr_load_generator_have_reply l ((t : Nat) : Int) 0 armOk).engine.stats.rttvar
        < 2305843009213693952 := by
      rw [e.2.1, htU]
      exact step.2.2.2
    rw [rtt_run, List.foldl_cons,
      ih _ (fun x hx => h x (List.mem_cons_of_mem _ hx)) hr' hv',
      e.1, e.2.1, htU, step.1, step.2.1]

/-- C5 (amended): for every reply sample t, the estimator computes first
rttvar' = (((IBETA-1)*rttvar + |rtt - t|) mod 2^64) / IBETA with IBETA = 4
using the old rtt value, and only then rtt' = ((t + (IALPHA-1)*rtt) mod 2^64)
/ IALPHA with IALPHA = 8 — the claimed formulas with their sums evaluated in
uint64 arithmetic.  For any scripted sequence of samples below 2^61 ns (so
that no sum reaches 2^64) fed to a fresh engine (rtt0 = 0, rttvar0 = 0), the
resulting (rtt, rttvar) pair is the fold of exactly the ideal old-rtt-first
recurrence. -/
theorem rtt_sequence_matches_recurrence (cfg : fr_load_config_t) (armOk : Bool)
    (ts : List Nat) (hts : ∀ t ∈ ts, t < 2305843009213693952) :
    ((rtt_run (fr_load_generator_create cfg) armOk ts).stats.rtt,
      (rtt_run (fr_load_generator_create cfg) armOk ts).stats.rttvar)
      = List.foldl rtt_spec_step (0, 0) ts :=
  rtt_run_foldl_no_wrap armOk ts (fr_load_generator_create cfg) hts
    (by show (0 : Nat) < 2305843009213693952; omega)
    (by show (0 : Nat) < 2305843009213693952; omega)

/-- C5 counterexample: three samples of 2^63 - 1 ns (valid int64 latencies)
make the uint64 numerator t + 7*rtt wrap past 2^64 at the third step: the
code's rtt is 738590338888761343, while the claim's ideal old-rtt-first
recurrence gives 3044433348102455295. -/
theorem rtt_wraparound_counterexample :
    (rtt_run (fr_load_generator_create ⟨2, 0, 5, 1, 1000, 1⟩) true
        [9223372036854775807, 9223372036854775807, 9223372036854775807]).stats.rtt
      = 738590338888761343 ∧
    (List.foldl rtt_spec_step (0, 0)
        [9223372036854775807, 9223372036854775807, 9223372036854775807]).1
      = 3044433348102455295 ∧
    ((rtt_run (fr_load_generator_create ⟨2, 0, 5, 1, 1000, 1⟩) true
        [9223372036854775807, 9223372036854775807, 9223372036854775807]).stats.rtt,
      (rtt_run (fr_load_generator_create ⟨2, 0, 5, 1, 1000, 1⟩) true
        [9223372036854775807, 9223372036854775807, 9223372036854775807]).stats.rttvar)
      ≠ List.foldl rtt_spec_step (0, 0)
          [9223372036854775807, 9223372036854775807, 9223372036854775807] := by decide

/-- Closed instance of rtt_sequence_matches_recurrence on the samples
1000, 2000, 3000 ns. -/
theorem rtt_sequence_matches_recurrence_witness :
    (∀ t ∈ [1000, 2000, 3000], t < 2305843009213693952) ∧
    ((rtt_run (fr_load_generator_create ⟨2, 0, 5, 1, 1000, 1⟩) true [1000, 2000, 3000]).stats.rtt,
      (rtt_run (fr_load_generator_create ⟨2, 0, 5, 1, 1000, 1⟩) true
          [1000, 2000, 3000]).stats.rttvar)
      = List.foldl rtt_spec_step (0, 0) [1000, 2000, 3000] :=
  ⟨by decide,
   rtt_sequence_matches_recurrence ⟨2, 0, 5, 1, 1000, 1⟩ true [1000, 2000, 3000] (by decide)⟩

theorem admission_cond_below (e : Int) (he : 0 ≤ e) (h : e < 100) :
    ((e % ((U32 : Nat) : Int)).toNat * 1000) % U32 < (100 * 1000) % U32 := by
  have h32 : e % ((U32 : Nat) : Int) = e :=
    Int.emod_eq_of_lt he (by simp only [U32]; omega)
  rw [h32]
  have hn : e.toNat < 100 := by omega
  have hlt : e.toNat * 1000 < U32 := by simp only [U32]; omega
  rw [Nat.mod_eq_of_lt hlt]
  have hr : (100 * 1000) % U32 = 100000 := by simp only [U32]
  rw [hr]
  omega

theorem admission_cond_at_or_above (e : Int) (he : 0 ≤ e) (h : 100 ≤ e)
    (hb : e ≤ 4294967) :
    ¬ (((e % ((U32 : Nat) : Int)).toNat * 1000) % U32 < (100 * 1000) % U32) := by
  have h32 : e % ((U32 : Nat) : Int) = e :=
    Int.emod_eq_of_lt he (by simp only [U32]; omega)
  rw [h32]
  have hn : 100 ≤ e.toNat := by omega
  have hn2 : e.toNat ≤ 4294967 := by omega
  have hlt : e.toNat * 1000 < U32 := by simp only [U32]; omega
  rw [Nat.mod_eq_of_lt hlt]
  have hr : (100 * 1000) % U32 = 100000 := by simp only [U32]
  rw [hr]
  omega

/-- C1 (amended): the admission decision selects SENDING exactly when the
uint32 comparison `ema * 1000 < pps * milliseconds` holds (strict <), and
otherwise selects GATED with count = 1.  With pps = 100 and
milliseconds = 1000, any (nonnegative) updated ema < 100 yields SENDING with
blocked cleared and count = parallel; any updated ema with
100 ≤ ema ≤ 4294967 (so that ema * 1000 does not wrap past 2^32) yields
GATED with count = 1; at the exact boundary ema = 100 (ema * 1000 =
pps * milliseconds) the strict < fails, so the resulting state is GATED. -/
theorem admission_decision_threshold (l : fr_load_t) (now : Int) :
    ((load_admission l now).1.state = .SENDING ↔ load_admission_cond l) ∧
    (¬ load_admission_cond l →
      (load_admission l now).1.state = .GATED ∧ (load_admission l now).1.count = 1) ∧
    (l.pps = 100 → l.config.milliseconds = 1000 → 0 ≤ l.stats.backlog_ema →
      (l.stats.backlog_ema < 100 →
        (load_admission l now).1.state = .SENDING ∧
        (load_admission l now).1.stats.blocked = false ∧
        (load_admission l now).1.count = l.config.parallel) ∧
      (100 ≤ l.stats.backlog_ema → l.stats.backlog_ema ≤ 4294967 →
        (load_admission l now).1.state = .GATED ∧ (load_admission l now).1.count = 1) ∧
      (l.stats.backlog_ema = 100 → (load_admission l now).1.state = .GATED)) := by
  refine ⟨?_, ?_, ?_⟩
  · by_cases hc : load_admission_cond l
    · unfold load_admission
      rw [if_pos hc]
      exact ⟨fun _ => hc, fun _ => rfl⟩
    · unfold load_admission
      rw [if_neg hc]
      exact iff_of_false (by simp) hc
  · intro hc
    unfold load_admission
    rw [if_neg hc]
    exact ⟨rfl, rfl⟩
  · intro hp hm he
    refine ⟨?_, ?_, ?_⟩
    · intro h1
      have hc : load_admission_cond l := by
        simpa only [load_admission_cond, hp, hm] using
          admission_cond_below l.stats.backlog_ema he h1
      unfold load_admission
      rw [if_pos hc]
      exact ⟨rfl, rfl, rfl⟩
    · intro h2 h3
      have hc : ¬ load_admission_cond l := by
        simpa only [load_admission_cond, hp, hm] using
          admission_cond_at_or_above l.stats.backlog_ema he h2 h3
      unfold load_admission
      rw [if_neg hc]
      exact ⟨rfl, rfl⟩
    · intro h4
      have hc : ¬ load_admission_cond l := by
        simpa only [load_admission_cond, hp, hm] using
          admission_cond_at_or_above l.stats.backlog_ema he (le_of_eq h4.symm) (by omega)
      unfold load_admission
      rw [if_neg hc]

/-- Pre-tick engine whose EMA update lands exactly on the admission
boundary: pps = 100, milliseconds = 1000, and the updated backlog_ema is
100, so ema * 1000 = pps * milliseconds. -/
def cexC1 : fr_load_t :=
  { state := .SENDING
    config := ⟨100, 0, 5, 1, 1000, 1⟩
    stats := { fr_load_stats_init with sent := 99, backlog_ema := 100 }
    step_start := 0
    step_end := 1000000000000000000
    step_received := 0
    pps := 100
    delta := 10000000
    count := 1
    next := 100 }

/-- C1 counterexample: on a tick whose updated ema sits exactly on the
boundary ema * 1000 = pps * milliseconds (ema = 100, pps = 100,
milliseconds = 1000), the engine ends the tick GATED, not SENDING as the
claim asserts for the boundary. -/
theorem admission_boundary_counterexample :
    cexC1.pps = 100 ∧
    cexC1.config.milliseconds = 1000 ∧
    (load_timer cexC1 10000000 true).engine.stats.backlog_ema = 100 ∧
    (load_timer cexC1 10000000 true).engine.state = .GATED ∧
    (load_timer cexC1 10000000 true).engine.state ≠ .SENDING := by decide

/-- Engine state for the admission witness: pps = 100, milliseconds = 1000,
backlog_ema = 50 (below the threshold). -/
def exC1 : fr_load_t :=
  { cexC1 with stats := { fr_load_stats_init with sent := 50, backlog_ema := 50 } }

/-- Closed instance of admission_decision_threshold: ema = 50 < 100 gives
SENDING, blocked cleared, count = parallel; and the boundary/GATED clauses
apply at ema = 50 vacuously discharged elsewhere, so we also check the iff
direction concretely. -/
theorem admission_decision_threshold_witness :
    (load_admission exC1 0).1.state = .SENDING ∧
    (load_admission exC1 0).1.stats.blocked = false ∧
    (load_admission exC1 0).1.count = exC1.config.parallel := by
  have h := (admission_decision_threshold exC1 0).2.2 rfl rfl (by decide)
  exact h.1 (by decide)

theorem load_timer_arm_armed_delay (l3 : fr_load_t) (dd : Int) (armOk : Bool) (d : Int) :
    (load_timer_arm l3 dd armOk).armed = some d → d = dd := by
  unfold load_timer_arm
  split
  · split <;> simp <;> omega
  · simp

theorem load_timer_arm_calls_ok (l3 : fr_load_t) (dd : Int) :
    (load_timer_arm l3 dd true).calls = (load_timer_arm l3 dd true).engine.count := by
  unfold load_timer_arm
  split <;> rfl

theorem load_timer_arm_fail (l3 : fr_load_t) (dd : Int) :
    ((load_timer_arm l3 dd false).armed).isSome →
    (load_timer_arm l3 dd false).engine.state = .DRAINING ∧
    (load_timer_arm l3 dd false).calls = 0 := by
  unfold load_timer_arm
  split
  · intro _
    exact ⟨rfl, rfl⟩
  · simp

/-- C6 (amended): each tick updates backlog_ema exactly by the code's
formula `((backlog - ema)*2 + (pps+1)*ema) / (pps+1)` with the numerator
evaluated in uint32 arithmetic (wrapped mod 2^32, a single division after
all additions); whenever the numerator lies in [0, 2^32) this coincides
with the ideal single-division formula of the spec. -/
theorem backlog_ema_update_formula (l : fr_load_t) (now : Int) (armOk : Bool) :
    (load_timer l now armOk).engine.stats.backlog_ema
      = backlog_ema_wrapped (((l.stats.sent + l.count : Nat) : Int) - (l.stats.received : Int))
          l.stats.backlog_ema l.pps ∧
    (∀ b e : Int, ∀ p : Nat,
      0 ≤ (b - e) * 2 + ((p : Int) + 1) * e →
      (b - e) * 2 + ((p : Int) + 1) * e < ((U32 : Nat) : Int) →
      backlog_ema_wrapped b e p = backlog_ema_ideal b e p) := by
  refine ⟨load_timer_engine_backlog_ema l now armOk, ?_⟩
  intro b e p h0 hlt
  unfold backlog_ema_wrapped backlog_ema_ideal
  rw [Int.emod_eq_of_lt h0 hlt]
  have hcast : ((((b - e) * 2 + ((p : Int) + 1) * e).toNat / (p + 1) : Nat) : Int)
      = (((b - e) * 2 + ((p : Int) + 1) * e).toNat : Int) / ((p + 1 : Nat) : Int) := by
    simp
  rw [hcast, Int.toNat_of_nonneg h0]
  push_cast
  ring_nf

/-- Pre-tick engine on which the uint32 EMA numerator wraps: pps = 100000,
ema = 50000, post-increment backlog = 60000, so the numerator
20000 + 100001*50000 = 5000070000 exceeds 2^32. -/
def cex6 : fr_load_t :=
  { state := .SENDING
    config := ⟨100, 0, 5, 1, 1000, 1⟩
    stats := { fr_load_stats_init with sent := 59999, backlog_ema := 50000 }
    step_start := 0
    step_end := 1000000000000000000
    step_received := 0
    pps := 100000
    delta := 10000
    count := 1
    next := 100 }

/-- C6 counterexample: on cex6 the code's tick yields backlog_ema = 7050
(the numerator wrapped mod 2^32 before the division), while the claimed
ideal integer formula gives 50000. -/
theorem backlog_ema_overflow_counterexample :
    (load_timer cex6 0 true).engine.stats.backlog_ema = 7050 ∧
    backlog_ema_ideal (((cex6.stats.sent + cex6.count : Nat) : Int) - (cex6.stats.received : Int))
        cex6.stats.backlog_ema cex6.pps = 50000 ∧
    (load_timer cex6 0 true).engine.stats.backlog_ema ≠
      backlog_ema_ideal (((cex6.stats.sent + cex6.count : Nat) : Int) - (cex6.stats.received : Int))
        cex6.stats.backlog_ema cex6.pps := by decide

/-- Closed instance of backlog_ema_update_formula: on exC1 (pps = 100,
backlog small) the wrapped and ideal formulas agree and the tick computes
them. -/
theorem backlog_ema_update_formula_witness :
    (load_timer exC1 0 true).engine.stats.backlog_ema
      = backlog_ema_wrapped (((exC1.stats.sent + exC1.count : Nat) : Int) - (exC1.stats.received : Int))
          exC1.stats.backlog_ema exC1.pps ∧
    backlog_ema_wrapped 51 50 100 = backlog_ema_ideal 51 50 100 := by
  have h := backlog_ema_update_formula exC1 0 true
  exact ⟨h.1, h.2 51 50 100 (by decide) (by decide)⟩

/-- C7: on every tick whose admission decision is SENDING, the new schedule
point is previous next + delta, and the delay handed to the timer equals
next - now when next has not fallen behind now and 0 otherwise; that delay
is never negative. -/
theorem sending_tick_schedule_clamp (l : fr_load_t) (now : Int) (armOk : Bool)
    (hc : load_admission_cond (load_timer_update l now)) :
    (load_timer l now armOk).engine.next = l.next + l.delta ∧
    (∀ d, (load_timer l now armOk).armed = some d →
      d = (if l.next + l.delta < now then 0 else l.next + l.delta - now) ∧ 0 ≤ d) := by
  have hadm : (load_admission (load_timer_update l now) now)
      = ({ load_timer_update l now with
            state := .SENDING,
            stats := { (load_timer_update l now).stats with blocked := false },
            count := (load_timer_update l now).config.parallel,
            next := (load_timer_update l now).next + (load_timer_update l now).delta },
         if (load_timer_update l now).next + (load_timer_update l now).delta < now then 0
         else (load_timer_update l now).next + (load_timer_update l now).delta - now) := by
    unfold load_admission
    rw [if_pos hc]
  constructor
  · rw [load_timer_eq, load_timer_arm_engine_next, (load_step_rollover_frame _).2.2.2.2.2.2.1,
      hadm]
    rfl
  · intro d hd
    rw [load_timer_eq] at hd
    have hval := load_timer_arm_armed_delay _ _ _ _ hd
    rw [hadm] at hval
    refine ⟨hval, ?_⟩
    rw [hval]
    split <;> omega

/-- Engine state for the schedule-clamp witness: SENDING at low backlog, so
the tick keeps SENDING, schedules next = previous next + delta and arms the
timer with the clamped nonnegative delay. -/
def exC7 : fr_load_t :=
  { state := .SENDING
    config := ⟨100, 0, 5, 1, 1000, 1⟩
    stats := { fr_load_stats_init with sent := 5, received := 5 }
    step_start := 0
    step_end := 1000000000000000000
    step_received := 0
    pps := 100
    delta := 10000000
    count := 1
    next := 100 }

/-- Closed instance of sending_tick_schedule_clamp at exC7, now = 200: the
armed delay is 100 + 10000000 - 200 = 9999900 and is nonnegative. -/
theorem sending_tick_schedule_clamp_witness :
    (load_timer exC7 200 true).engine.next = exC7.next + exC7.delta ∧
    (load_timer exC7 200 true).armed = some 9999900 ∧
    (9999900 : Int)
      = (if exC7.next + exC7.delta < 200 then 0 else exC7.next + exC7.delta - 200) ∧
    (0 : Int) ≤ 9999900 := by
  have h := sending_tick_schedule_clamp exC7 200 true (by decide)
  have ha : (load_timer exC7 200 true).armed = some 9999900 := by decide
  exact ⟨h.1, ha, (h.2 9999900 ha).1, (h.2 9999900 ha).2⟩

/-- C9 (amended): every tick increments stats.sent by the count decided on
the previous tick, and — provided the tick does not abort on timer-arming
failure — invokes the send callback the number of times decided on the
current tick; consequently, whenever the admission decision changes count,
the increment to stats.sent differs from the number of callback invocations
of that tick. -/
theorem sent_increment_vs_callbacks (l : fr_load_t) (now : Int) (armOk : Bool) :
    (load_timer l now armOk).engine.stats.sent = l.stats.sent + l.count ∧
    (armOk = true →
      (load_timer l now armOk).calls = (load_timer l now armOk).engine.count) ∧
    (armOk = true → l.count ≠ (load_timer l now armOk).engine.count →
      (load_timer l now armOk).engine.stats.sent
        ≠ l.stats.sent + (load_timer l now armOk).calls) := by
  refine ⟨load_timer_engine_sent l now armOk, ?_, ?_⟩
  · rintro rfl
    rw [load_timer_eq]
    exact load_timer_arm_calls_ok _ _
  · rintro rfl hne
    have hcalls : (load_timer l now true).calls = (load_timer l now true).engine.count := by
      rw [load_timer_eq]
      exact load_timer_arm_calls_ok _ _
    rw [load_timer_engine_sent, hcalls]
    omega

/-- Pre-tick engine for the C9 counterexample: SENDING at low backlog, so
the decision keeps SENDING with count = parallel = 1, but arming fails, so
the tick performs zero callback invocations. -/
def cex9 : fr_load_t :=
  { state := .SENDING
    config := ⟨100, 0, 5, 1, 1000, 1⟩
    stats := { fr_load_stats_init with sent := 5, received := 5 }
    step_start := 0
    step_end := 1000000000000000000
    step_received := 0
    pps := 100
    delta := 10000000
    count := 1
    next := 100 }

/-- C9 counterexample: on a tick whose timer arming fails, the send callback
runs zero times even though the current decision set count = 1, so the
callback is not invoked the number of times decided on the current tick. -/
theorem callbacks_skip_on_arm_failure_counterexample :
    (load_timer cex9 200 false).engine.count = 1 ∧
    (load_timer cex9 200 false).calls = 0 ∧
    (load_timer cex9 200 false).calls ≠ (load_timer cex9 200 false).engine.count := by decide

/-- Pre-tick engine for the C9 witness: count = 2 queued by the previous
SENDING decision (parallel = 2), but the high backlog gates this tick, so
the new count is 1 and only one callback runs while sent grows by 2. -/
def exC9 : fr_load_t :=
  { state := .SENDING
    config := ⟨100, 0, 5, 1, 1000, 2⟩
    stats := { fr_load_stats_init with sent := 200, backlog_ema := 200 }
    step_start := 0
    step_end := 1000000000000000000
    step_received := 0
    pps := 100
    delta := 20000000
    count := 2
    next := 100 }

/-- Closed instance of sent_increment_vs_callbacks at exC9: sent grows by
the previous count 2, one callback runs (the newly decided count), and the
two differ. -/
theorem sent_increment_vs_callbacks_witness :
    (load_timer exC9 0 true).engine.stats.sent = exC9.stats.sent + exC9.count ∧
    (load_timer exC9 0 true).calls = (load_timer exC9 0 true).engine.count ∧
    (load_timer exC9 0 true).engine.stats.sent
      ≠ exC9.stats.sent + (load_timer exC9 0 true).calls := by
  have h := sent_increment_vs_callbacks exC9 0 true
  exact ⟨h.1, h.2.1 rfl, h.2.2 rfl (by decide)⟩

theorem load_timer_fail (l : fr_load_t) (now : Int) :
    ((load_timer l now false).armed).isSome →
    (load_timer l now false).engine.state = .DRAINING ∧
    (load_timer l now false).calls = 0 := by
  rw [load_timer_eq]
  exact load_timer_arm_fail _ _

/-- C2 (amended): fr_load_generator_start always returns ok (the C function
returns 0 unconditionally); when the bootstrap tick attempts to arm the
timer (armed.isSome) and the arming fails, the engine immediately
transitions to DRAINING with no send-callback invocation — but stats.sent
has already been incremented by the initial count, so it equals parallel
rather than 0. -/
theorem start_failure_drains_without_callbacks (cfg : fr_load_config_t) (now : Int)
    (armOk : Bool) :
    (fr_load_generator_start (fr_load_generator_create cfg) now armOk).2 = 0 ∧
    (((fr_load_generator_start (fr_load_generator_create cfg) now false).1.armed).isSome →
      (fr_load_generator_start (fr_load_generator_create cfg) now false).1.engine.state
        = .DRAINING ∧
      (fr_load_generator_start (fr_load_generator_create cfg) now false).1.calls = 0 ∧
      (fr_load_generator_start (fr_load_generator_create cfg) now false).1.engine.stats.sent
        = (fr_load_generator_create cfg).config.parallel) := by
  refine ⟨rfl, fun hsome => ?_⟩
  have hfail := load_timer_fail (start_init (fr_load_generator_create cfg) now) now hsome
  refine ⟨hfail.1, hfail.2, ?_⟩
  have hs := load_timer_engine_sent (start_init (fr_load_generator_create cfg) now) now false
  rw [show (fr_load_generator_start (fr_load_generator_create cfg) now false).1
      = load_timer (start_init (fr_load_generator_create cfg) now) now false from rfl, hs]
  exact Nat.zero_add _

/-- C2 counterexample: with start_pps = 2 (so the bootstrap tick decides
SENDING and attempts to arm the timer) and arming failing, the engine is
DRAINING with zero callback invocations — yet stats.sent = 1, not 0 as the
claim's "no packets counted as sent" requires. -/
theorem start_failure_sent_counterexample :
    ((fr_load_generator_start (fr_load_generator_create ⟨2, 0, 5, 1, 1000, 1⟩) 0
        false).1.armed).isSome = true ∧
    (fr_load_generator_start (fr_load_generator_create ⟨2, 0, 5, 1, 1000, 1⟩) 0
        false).1.engine.state = .DRAINING ∧
    (fr_load_generator_start (fr_load_generator_create ⟨2, 0, 5, 1, 1000, 1⟩) 0
        false).1.calls = 0 ∧
    (fr_load_generator_start (fr_load_generator_create ⟨2, 0, 5, 1, 1000, 1⟩) 0
        false).1.engine.stats.sent = 1 ∧
    (fr_load_generator_start (fr_load_generator_create ⟨2, 0, 5, 1, 1000, 1⟩) 0
        false).1.engine.stats.sent ≠ 0 := by decide

/-- Closed instance of start_failure_drains_without_callbacks at the same
configuration. -/
theorem start_failure_drains_without_callbacks_witness :
    (fr_load_generator_start (fr_load_generator_create ⟨2, 0, 5, 1, 1000, 1⟩) 0 false).2 = 0 ∧
    (fr_load_generator_start (fr_load_generator_create ⟨2, 0, 5, 1, 1000, 1⟩) 0
        false).1.engine.state = .DRAINING ∧
    (fr_load_generator_start (fr_load_generator_create ⟨2, 0, 5, 1, 1000, 1⟩) 0
        false).1.calls = 0 ∧
    (fr_load_generator_start (fr_load_generator_create ⟨2, 0, 5, 1, 1000, 1⟩) 0
        false).1.engine.stats.sent
      = (fr_load_generator_create ⟨2, 0, 5, 1, 1000, 1⟩).config.parallel := by
  have h := start_failure_drains_without_callbacks ⟨2, 0, 5, 1, 1000, 1⟩ 0 false
  have h2 := h.2 (by decide)
  exact ⟨h.1, h2.1, h2.2.1, h2.2.2⟩

theorem load_step_rollover_state_drains (l : fr_load_t)
    (h1 : l.step_end ≤ l.next)
    (hmax : l.config.max_pps ≠ 0) (hgt : l.config.max_pps < l.pps + l.config.step) :
    (load_step_rollover l).state = .DRAINING := by
  unfold load_step_rollover
  split
  · dsimp only
    split
    · rfl
    · next h2 => exact absurd ⟨hmax, hgt⟩ h2
  · next h2 => exact absurd h1 (by omega)

theorem load_timer_arm_not_sending (l3 : fr_load_t) (dd : Int) (armOk : Bool)
    (h : l3.state ≠ .SENDING) :
    load_timer_arm l3 dd armOk = ⟨l3, none, l3.count⟩ := by
  unfold load_timer_arm
  rw [if_neg h]

theorem load_admission_fields (l : fr_load_t) (now : Int) :
    (load_admission l now).1.step_end = l.step_end ∧
    (load_admission l now).1.config = l.config ∧
    (load_admission l now).1.pps = l.pps ∧
    ((load_admission l now).1.next = l.next + l.delta ∨
      (load_admission l now).1.next = now + l.delta) ∧
    ((load_admission l now).1.count = l.config.parallel ∨
      (load_admission l now).1.count = 1) := by
  unfold load_admission
  split
  · exact ⟨rfl, rfl, rfl, Or.inl rfl, Or.inl rfl⟩
  · exact ⟨rfl, rfl, rfl, Or.inr rfl, Or.inr rfl⟩

/-- A tick whose admission result (either branch) lands at or past step_end,
with max_pps set and exceeded by pps + step, ends DRAINING having run the
callback once (count = parallel = 1 or the gated count 1), arming nothing. -/
theorem load_timer_drains (l : fr_load_t) (now : Int) (armOk : Bool)
    (hs1 : l.step_end ≤ l.next + l.delta)
    (hs2 : l.step_end ≤ now + l.delta)
    (hmax : l.config.max_pps ≠ 0)
    (hgt : l.config.max_pps < l.pps + l.config.step)
    (hpar : l.config.parallel = 1) :
    (load_timer l now armOk).engine.state = .DRAINING ∧
    (load_timer l now armOk).calls = 1 ∧
    (load_timer l now armOk).armed = none := by
  rw [load_timer_eq]
  have hf := load_admission_fields (load_timer_update l now) now
  have hst : (load_step_rollover (load_admission (load_timer_update l now) now).1).state
      = .DRAINING := by
    apply load_step_rollover_state_drains
    · rw [hf.1]
      rcases hf.2.2.2.1 with hn | hn <;> rw [hn]
      · exact hs1
      · exact hs2
    · rw [hf.2.1]; exact hmax
    · rw [hf.2.1, hf.2.2.1]; exact hgt
  rw [load_timer_arm_not_sending _ _ _ (by rw [hst]; simp)]
  refine ⟨hst, ?_, rfl⟩
  show (load_step_rollover (load_admission (load_timer_update l now) now).1).count = 1
  rw [(load_step_rollover_frame _).2.2.2.2.2.2.2.1]
  rcases hf.2.2.2.2 with hc | hc <;> rw [hc]
  exact hpar

theorem have_reply_done_of (l : fr_load_t) (now rt : Int) (armOk : Bool)
    (hst : l.state = .DRAINING) (hle : l.stats.sent ≤ l.stats.received + 1) :
    (fr_load_generator_have_reply l now rt armOk).result = .FR_LOAD_DONE ∧
    (fr_load_generator_have_reply l now rt armOk).engine.stats.end_ = now := by
  unfold fr_load_generator_have_reply
  simp [hst]
  split
  · next hlt => exact absurd hlt (by omega)
  · exact ⟨rfl, rfl⟩

/-- C3 (amended): with max_pps = start_pps (start_pps ≥ 1), parallel = 1,
step ≥ 1 and duration = 0 (so the bootstrap tick already closes the first
ramp window and the incremented pps exceeds the cap), start() sends exactly
one request (stats.sent = 1, one callback invocation) and leaves the engine
DRAINING; a single subsequent have_reply then returns DONE and sets
stats.end. -/
theorem capped_ramp_terminates (cfg : fr_load_config_t) (now now2 rt : Int)
    (armOk armOk2 : Bool)
    (h1 : 1 ≤ cfg.start_pps) (h2 : cfg.max_pps = cfg.start_pps)
    (h3 : cfg.parallel = 1) (h4 : 1 ≤ cfg.step) (h5 : cfg.duration = 0) :
    (fr_load_generator_start (fr_load_generator_create cfg) now armOk).1.engine.stats.sent
      = 1 ∧
    (fr_load_generator_start (fr_load_generator_create cfg) now armOk).1.calls = 1 ∧
    (fr_load_generator_start (fr_load_generator_create cfg) now armOk).1.engine.state
      = .DRAINING ∧
    (fr_load_generator_have_reply
        (fr_load_generator_start (fr_load_generator_create cfg) now armOk).1.engine now2 rt
        armOk2).result = .FR_LOAD_DONE ∧
    (fr_load_generator_have_reply
        (fr_load_generator_start (fr_load_generator_create cfg) now armOk).1.engine now2 rt
        armOk2).engine.stats.end_ = now2 := by
  have hsp : (fr_load_generator_create cfg).config.start_pps = cfg.start_pps := by
    show (if cfg.start_pps = 0 then 1 else cfg.start_pps) = cfg.start_pps
    rw [if_neg (by omega)]
  have hpar : (fr_load_generator_create cfg).config.parallel = 1 := by
    show (if cfg.parallel = 0 then 1 else cfg.parallel) = 1
    simp [h3]
  set I := start_init (fr_load_generator_create cfg) now with hI
  have hz : ((cfg.duration * NSEC : Nat) : Int) = 0 := by
    rw [h5]
    simp
  have hIse : I.step_end = now + ((cfg.duration * NSEC : Nat) : Int) := rfl
  have hInext : I.next = now + I.delta := rfl
  have hIdelta : (0 : Int) ≤ I.delta := by
    show (0 : Int) ≤
      ((NSEC * (fr_load_generator_create cfg).config.parallel
          / (fr_load_generator_create cfg).config.start_pps : Nat) : Int)
    exact Int.natCast_nonneg _
  have hd := load_timer_drains I now armOk
    (by rw [hIse, hz, hInext]; omega)
    (by rw [hIse, hz]; omega)
    (by show cfg.max_pps ≠ 0; omega)
    (by
      show cfg.max_pps < (fr_load_generator_create cfg).config.start_pps + cfg.step
      rw [hsp]
      omega)
    hpar
  have hsent : (fr_load_generator_start (fr_load_generator_create cfg) now
      armOk).1.engine.stats.sent = 1 := by
    show (load_timer I now armOk).engine.stats.sent = 1
    rw [load_timer_engine_sent]
    show 0 + (fr_load_generator_create cfg).config.parallel = 1
    rw [hpar]
  have hrecv : (fr_load_generator_start (fr_load_generator_create cfg) now
      armOk).1.engine.stats.received = 0 := by
    show (load_timer I now armOk).engine.stats.received = 0
    rw [load_timer_engine_received]
    rfl
  have hstate : (fr_load_generator_start (fr_load_generator_create cfg) now
      armOk).1.engine.state = .DRAINING := hd.1
  have hdone := have_reply_done_of
    (fr_load_generator_start (fr_load_generator_create cfg) now armOk).1.engine now2 rt armOk2
    hstate (by omega)
  exact ⟨hsent, hd.2.1, hstate, hdone.1, hdone.2⟩

/-- C3 counterexample: the configuration start_pps = max_pps = 3,
duration = 1, step = 1, parallel = 1 satisfies the claim's hypotheses
(max_pps equal to start_pps, parallel = 1), yet after start() the bootstrap
tick does not reach the end of the first ramp window, so the engine is
SENDING, not DRAINING. -/
theorem capped_ramp_counterexample :
    (fr_load_generator_create ⟨3, 3, 1, 1, 1000, 1⟩).config.max_pps
      = (fr_load_generator_create ⟨3, 3, 1, 1, 1000, 1⟩).config.start_pps ∧
    (fr_load_generator_create ⟨3, 3, 1, 1, 1000, 1⟩).config.parallel = 1 ∧
    (fr_load_generator_start (fr_load_generator_create ⟨3, 3, 1, 1, 1000, 1⟩) 0
        true).1.engine.stats.sent = 1 ∧
    (fr_load_generator_start (fr_load_generator_create ⟨3, 3, 1, 1, 1000, 1⟩) 0
        true).1.engine.state = .SENDING ∧
    (fr_load_generator_start (fr_load_generator_create ⟨3, 3, 1, 1, 1000, 1⟩) 0
        true).1.engine.state ≠ .DRAINING := by decide

/-- Closed instance of capped_ramp_terminates at start_pps = max_pps = 1,
step = 1, duration = 0, parallel = 1. -/
theorem capped_ramp_terminates_witness :
    (fr_load_generator_start (fr_load_generator_create ⟨1, 1, 0, 1, 1000, 1⟩) 0
        true).1.engine.stats.sent = 1 ∧
    (fr_load_generator_start (fr_load_generator_create ⟨1, 1, 0, 1, 1000, 1⟩) 0
        true).1.calls = 1 ∧
    (fr_load_generator_start (fr_load_generator_create ⟨1, 1, 0, 1, 1000, 1⟩) 0
        true).1.engine.state = .DRAINING ∧
    (fr_load_generator_have_reply
        (fr_load_generator_start (fr_load_generator_create ⟨1, 1, 0, 1, 1000, 1⟩) 0
          true).1.engine 7 0 true).result = .FR_LOAD_DONE ∧
    (fr_load_generator_have_reply
        (fr_load_generator_start (fr_load_generator_create ⟨1, 1, 0, 1, 1000, 1⟩) 0
          true).1.engine 7 0 true).engine.stats.end_ = 7 :=
  capped_ramp_terminates ⟨1, 1, 0, 1, 1000, 1⟩ 0 7 0 true true (by decide) rfl rfl
    (by decide) rfl

end Load
